import Mathlib

/-!
Shallow embedding of the finagent front end (src/src/app/stock-analysis/page.tsx
and src/src/app/portfolio/page.tsx, the latter holding both the PortfolioPage
and the SentimentPage components).  Each submit handler is modelled as a pure
function from the page's state plus an environment describing the outcomes of
the `fetch` calls to the final page state together with the ordered list of
HTTP requests the invocation issued.  Strings are modelled over ASCII (the
pages only ever compare and build ASCII strings) and JS numbers are modelled
as rationals; `parseInt` / `parseFloat` returning NaN is modelled as `none`,
since `JSON.stringify` serialises NaN as `null`.
-/

/-- JS `String.prototype.includes`: `sub` occurs contiguously in `s`. -/
def strIncludes (s sub : String) : Bool :=
  (List.range (s.toList.length + 1)).any
    (fun i => ((s.toList.drop i).take sub.toList.length) == sub.toList)

/-- Drop whitespace from both ends of a character list. -/
def trimList (cs : List Char) : List Char :=
  ((cs.dropWhile Char.isWhitespace).reverse.dropWhile Char.isWhitespace).reverse

/-- JS `String.prototype.trim`: strip whitespace from both ends. -/
def trimJs (s : String) : String :=
  String.mk (trimList s.toList)

/-- JS `String.prototype.toUpperCase` on the ASCII strings the pages use. -/
def toUpperJs (s : String) : String :=
  String.mk (s.toList.map Char.toUpper)

/-- ASCII upper-case letter, the character class `[A-Z]`. -/
def isUpperAlpha (c : Char) : Bool :=
  'A' ≤ c && c ≤ 'Z'

/-- The stock page's regex test `/^[A-Z]{1,5}$/.test s`. -/
def isValidStockSymbol (s : String) : Bool :=
  decide (1 ≤ s.length) && decide (s.length ≤ 5) && s.toList.all isUpperAlpha

/-- Numeric value of a list of decimal digit characters. -/
def natOfDigits (ds : List Char) : Nat :=
  ds.foldl (fun acc c => acc * 10 + (c.toNat - '0'.toNat)) 0

/-- JS `parseInt` (radix 10 inputs, as produced by the number form fields):
trim, optional sign, longest decimal-digit run; no digits gives NaN (`none`). -/
def parseIntJs (s : String) : Option Int :=
  let core : List Char → Option Int := fun l =>
    let ds := l.takeWhile Char.isDigit
    if ds.isEmpty then none else some (Int.ofNat (natOfDigits ds))
  match trimList s.toList with
  | '-' :: rest => (core rest).map (fun n => -n)
  | '+' :: rest => core rest
  | l => core l

/-- JS `parseFloat`: trim, optional sign, integer digits, optional fraction,
optional decimal exponent; no digits at all gives NaN (`none`). -/
def parseFloatJs (s : String) : Option ℚ :=
  let signRest : ℚ × List Char :=
    match trimList s.toList with
    | '-' :: r => (-1, r)
    | '+' :: r => (1, r)
    | r => (1, r)
  let sign := signRest.1
  let rest := signRest.2
  let intDs := rest.takeWhile Char.isDigit
  let rest2 := rest.drop intDs.length
  let fracRest : List Char × List Char :=
    match rest2 with
    | '.' :: r => (r.takeWhile Char.isDigit, r.drop (r.takeWhile Char.isDigit).length)
    | r => ([], r)
  let fracDs := fracRest.1
  let rest3 := fracRest.2
  if intDs.isEmpty && fracDs.isEmpty then none
  else
    let base : ℚ :=
      (natOfDigits intDs : ℚ) + (natOfDigits fracDs : ℚ) / ((10 : ℚ) ^ fracDs.length)
    let expVal : Int :=
      match rest3 with
      | 'e' :: r | 'E' :: r =>
        match r with
        | '-' :: r2 =>
          let ds := r2.takeWhile Char.isDigit
          if ds.isEmpty then 0 else -(Int.ofNat (natOfDigits ds))
        | '+' :: r2 =>
          let ds := r2.takeWhile Char.isDigit
          if ds.isEmpty then 0 else Int.ofNat (natOfDigits ds)
        | r2 =>
          let ds := r2.takeWhile Char.isDigit
          if ds.isEmpty then 0 else Int.ofNat (natOfDigits ds)
      | _ => 0
    some (sign * base * (10 : ℚ) ^ expVal)

/-- JS `Number.prototype.toFixed x digits`: throws a RangeError (here `none`)
when `digits` lies outside 0..100, otherwise renders `digits` decimals. -/
def toFixedJs (x : ℚ) (digits : Nat) : Option String :=
  if digits > 100 then none
  else
    let n : Nat := (Rat.floor (|x| * (10 : ℚ) ^ digits + 1 / 2)).toNat
    let s := toString n
    let padded :=
      if s.length < digits + 1 then
        String.mk (List.replicate (digits + 1 - s.length) '0') ++ s
      else s
    let ip := String.mk (padded.toList.take (padded.length - digits))
    let fp := String.mk (padded.toList.drop (padded.length - digits))
    some ((if x < 0 ∧ n ≠ 0 then "-" else "") ++ ip ++
      (if digits = 0 then "" else "." ++ fp))

/-- Insert thousands separators into a digit string, as the default locale of
`toLocaleString` does. -/
def groupThousands (s : List Char) : String :=
  let r := s.reverse
  let chunks :=
    (List.range ((r.length + 2) / 3)).map (fun i => ((r.drop (3 * i)).take 3).reverse)
  String.intercalate "," (chunks.reverse.map String.mk)

/-- JS `Number.prototype.toLocaleString` with the default options: at most
three fraction digits, thousands grouping.  Total on every number. -/
def toLocaleStringJs (x : ℚ) : String :=
  let n : Nat := (Rat.floor (|x| * 1000 + 1 / 2)).toNat
  let intPart := n / 1000
  let frac := n % 1000
  let f3 := (toString (1000 + frac)).toList.drop 1
  let fracStr := String.mk (f3.reverse.dropWhile (fun c => c == '0')).reverse
  (if x < 0 ∧ n ≠ 0 then "-" else "") ++ groupThousands (toString intPart).toList ++
    (if fracStr = "" then "" else "." ++ fracStr)

/-- Structured JSON body of a POST request (`JSON.stringify` argument).
`none` in a numeric field models a NaN serialised as `null`. -/
inductive ReqBody where
  | stockBody (symbol period : String)
  | sentimentBody (symbol : String) (days : Option Int)
  | portfolioBody (age : Option Int) (income : Option ℚ)
      (riskAppetite : String) (investmentPeriod : Option Int)
deriving DecidableEq

/-- One HTTP request as issued by `fetch`: method, URL, the explicitly passed
headers in order, and the JSON body for POSTs. -/
structure HttpRequest where
  method : String
  url : String
  headers : List (String × String)
  body : Option ReqBody
deriving DecidableEq

/-- Outcome of the `fetch('http://localhost:8001/health')` probe: the promise
rejects (a TypeError, always an `Error` instance) or resolves to a response. -/
inductive HealthOutcome where
  | reject (msg : String)
  | resolved
deriving DecidableEq

/-- Outcome of a POST `fetch` as the handlers observe it: the fetch promise
rejects (a TypeError), the response arrives but `response.json()` rejects, an
ok (2xx) response with payload `α`, or a non-2xx response whose JSON body has
an optional string `detail` field (`none` models an absent field). -/
inductive PostOutcome (α : Type) where
  | reject (msg : String)
  | jsonErr (ok : Bool) (msg : String)
  | success (data : α)
  | failure (detail : Option String)
deriving DecidableEq

/-- Is the outcome an ok response with a parsed payload? -/
def PostOutcome.isSuccess : PostOutcome α → Bool
  | .success _ => true
  | _ => false

/-- Every message an environment can make the handler catch is non-empty
(browsers' TypeErrors and JSON SyntaxErrors always carry a message). -/
def PostOutcome.goodMsgs : PostOutcome α → Prop
  | .reject m => m ≠ ""
  | .jsonErr _ m => m ≠ ""
  | _ => True

/-- The `52-week` sub-object of the stock payload. -/
structure FiftyTwoWeek where
  high : ℚ
  low : ℚ
deriving DecidableEq

/-- The `technical_indicators` sub-object of the stock payload. -/
structure TechnicalIndicators where
  trend : String
  rsi : ℚ
  macd : ℚ
  sma20 : ℚ
  sma50 : ℚ
  volatility : ℚ
  average_volume : ℚ
deriving DecidableEq

/-- The `StockAnalysis` response shape of stock-analysis/page.tsx. -/
structure StockAnalysis where
  symbol : String
  company_name : String
  sector : String
  industry : String
  current_price : ℚ
  price_change : ℚ
  market_cap : ℚ
  pe_ratio : Option ℚ
  fifty_two_week : FiftyTwoWeek
  technical_indicators : TechnicalIndicators
  analysis : String
deriving DecidableEq

/-- The `SentimentAnalysis` response shape of the sentiment page. -/
structure SentimentAnalysis where
  symbol : String
  company_name : String
  sentiment_analysis : String
  news_count : Int
  analyzed_articles : Int
  period_days : Int
  sources : List String
deriving DecidableEq

/-- The echoed profile of the `PortfolioRecommendation` response. -/
structure PortfolioProfile where
  age : Int
  income : ℚ
  risk_appetite : String
  investment_period : Int
deriving DecidableEq

/-- The `PortfolioRecommendation` response shape of the portfolio page. -/
structure PortfolioRecommendation where
  profile : PortfolioProfile
  recommendation : String
deriving DecidableEq

/-- UI state of StockAnalysisPage (the useState hooks). -/
structure StockState where
  symbol : String
  period : String
  loading : Bool
  analysis : Option StockAnalysis
  error : String
deriving DecidableEq

/-- UI state of SentimentPage (the useState hooks). -/
structure SentimentState where
  symbol : String
  days : String
  loading : Bool
  analysis : Option SentimentAnalysis
  error : String
deriving DecidableEq

/-- The `formData` object of PortfolioPage. -/
structure PortfolioFormData where
  age : String
  income : String
  risk_appetite : String
  investment_period : String
deriving DecidableEq

/-- UI state of PortfolioPage (the useState hooks). -/
structure PortfolioState where
  formData : PortfolioFormData
  loading : Bool
  recommendation : Option PortfolioRecommendation
  error : String
deriving DecidableEq

/-- Network environment seen by one StockAnalysisPage.handleAnalyze call. -/
structure StockEnv where
  health : HealthOutcome
  post : PostOutcome StockAnalysis
deriving DecidableEq

/-- Network environment seen by one SentimentPage.handleAnalyze call. -/
structure SentimentEnv where
  health : HealthOutcome
  post : PostOutcome SentimentAnalysis
deriving DecidableEq

/-- Network environment seen by one PortfolioPage.handleSubmit call. -/
structure PortfolioEnv where
  post : PostOutcome PortfolioRecommendation
deriving DecidableEq

/-- The fallback message substituted on the stock and sentiment pages when the
caught error message contains "Failed to fetch". -/
def fixedConnMsg : String :=
  "Unable to connect to the backend server. Please ensure it is running on port 8001."

/-- Message of the error thrown when the health probe yields `null`. -/
def backendDownMsg : String :=
  "Backend server is not running. Please start the server and try again."

/-- The catch block of the stock and sentiment handlers: set the error to the
caught message, then overwrite it with `fixedConnMsg` when the message
contains "Failed to fetch". -/
def replaceFetchErr (msg : String) : String :=
  if strIncludes msg "Failed to fetch" then fixedConnMsg else msg

/-- The bare `fetch('http://localhost:8001/health')` probe: GET, no headers,
no body. -/
def healthRequest : HttpRequest :=
  { method := "GET", url := "http://localhost:8001/health", headers := [], body := none }

/-- The POST issued by StockAnalysisPage.handleAnalyze. -/
def stockPostRequest (cleanSymbol period : String) : HttpRequest :=
  { method := "POST"
    url := "http://localhost:8001/analyze/stock"
    headers := [("Content-Type", "application/json"), ("Accept", "application/json")]
    body := some (.stockBody cleanSymbol period) }

/-- The POST issued by SentimentPage.handleAnalyze. -/
def sentimentPostRequest (symbol : String) (days : Option Int) : HttpRequest :=
  { method := "POST"
    url := "http://localhost:8001/analyze/sentiment"
    headers := [("Content-Type", "application/json"), ("Accept", "application/json")]
    body := some (.sentimentBody symbol days) }

/-- The POST issued by PortfolioPage.handleSubmit. -/
def portfolioPostRequest (fd : PortfolioFormData) : HttpRequest :=
  { method := "POST"
    url := "http://localhost:8001/portfolio/recommend"
    headers := [("Content-Type", "application/json")]
    body := some (.portfolioBody (parseIntJs fd.age) (parseFloatJs fd.income)
      fd.risk_appetite (parseIntJs fd.investment_period)) }

/-- Message of the error thrown by the stock handler on a non-2xx response
(lines 79-84): a special-cased message when `detail` contains "No data found
for symbol", the `detail` itself when it is a non-empty string, and a fixed
fallback otherwise (`data.detail || 'Failed to analyze stock'`). -/
def stockFailureMsg (cleanSymbol : String) (detail : Option String) : String :=
  match detail with
  | some d =>
    if strIncludes d "No data found for symbol" then
      "No data found for symbol \"" ++ cleanSymbol ++
        "\". Please verify the stock symbol is correct."
    else if d = "" then "Failed to analyze stock" else d
  | none => "Failed to analyze stock"

/-- `errorData.detail || 'Failed to analyze sentiment'` of the sentiment page. -/
def sentimentFailureMsg (detail : Option String) : String :=
  match detail with
  | some d => if d = "" then "Failed to analyze sentiment" else d
  | none => "Failed to analyze sentiment"

/-- `errorData.detail || 'Failed to get portfolio recommendation'`. -/
def portfolioFailureMsg (detail : Option String) : String :=
  match detail with
  | some d => if d = "" then "Failed to get portfolio recommendation" else d
  | none => "Failed to get portfolio recommendation"

/-- StockAnalysisPage.handleAnalyze (stock-analysis/page.tsx lines 38-102):
final state and the ordered list of requests issued.  The two early returns of
the source are the two outer else-branches here. -/
def stockHandleAnalyze (st : StockState) (env : StockEnv) : StockState × List HttpRequest :=
  if st.symbol = "" then
    ({ st with error := "Please enter a stock symbol" }, [])
  else
    let cleanSymbol := (toUpperJs (trimJs st.symbol))
    if isValidStockSymbol cleanSymbol then
      let st1 : StockState := { st with loading := true, error := "", analysis := none }
      match env.health with
      | .reject _ =>
        ({ st1 with error := replaceFetchErr backendDownMsg, loading := false },
          [healthRequest])
      | .resolved =>
        let reqs := [healthRequest, stockPostRequest cleanSymbol st.period]
        match env.post with
        | .reject msg =>
          ({ st1 with error := replaceFetchErr msg, loading := false }, reqs)
        | .jsonErr _ msg =>
          ({ st1 with error := replaceFetchErr msg, loading := false }, reqs)
        | .success data =>
          ({ st1 with analysis := some data, loading := false }, reqs)
        | .failure detail =>
          ({ st1 with
              error := replaceFetchErr (stockFailureMsg cleanSymbol detail)
              loading := false }, reqs)
    else
      ({ st with error := "Please enter a valid stock symbol (1-5 letters)" }, [])

/-- SentimentPage.handleAnalyze (portfolio/page.tsx, SentimentPage component):
final state and the ordered list of requests issued. -/
def sentimentHandleAnalyze (st : SentimentState) (env : SentimentEnv) :
    SentimentState × List HttpRequest :=
  if st.symbol = "" then
    ({ st with error := "Please enter a stock symbol" }, [])
  else
    let st1 : SentimentState := { st with loading := true, error := "", analysis := none }
    match env.health with
    | .reject _ =>
      ({ st1 with error := replaceFetchErr backendDownMsg, loading := false },
        [healthRequest])
    | .resolved =>
      let reqs := [healthRequest, sentimentPostRequest (toUpperJs st.symbol) (parseIntJs st.days)]
      match env.post with
      | .reject msg =>
        ({ st1 with error := replaceFetchErr msg, loading := false }, reqs)
      | .jsonErr _ msg =>
        ({ st1 with error := replaceFetchErr msg, loading := false }, reqs)
      | .success data =>
        ({ st1 with analysis := some data, loading := false }, reqs)
      | .failure detail =>
        ({ st1 with
            error := replaceFetchErr (sentimentFailureMsg detail)
            loading := false }, reqs)

/-- PortfolioPage.handleSubmit (portfolio/page.tsx lines 26-59): no client
validation, no health probe, a single POST; the catch block stores the caught
message unchanged. -/
def portfolioHandleSubmit (st : PortfolioState) (env : PortfolioEnv) :
    PortfolioState × List HttpRequest :=
  let st1 : PortfolioState := { st with loading := true, error := "", recommendation := none }
  let reqs := [portfolioPostRequest st.formData]
  match env.post with
  | .reject msg =>
    ({ st1 with error := msg, loading := false }, reqs)
  | .jsonErr _ msg =>
    ({ st1 with error := msg, loading := false }, reqs)
  | .success data =>
    ({ st1 with recommendation := some data, loading := false }, reqs)
  | .failure detail =>
    ({ st1 with error := portfolioFailureMsg detail, loading := false }, reqs)

/-- The result panels of StockAnalysisPage (lines 227-302): every text node
computed from a successful payload, in render order; `none` would mean a
formatting call threw. -/
def renderStockResult (a : StockAnalysis) : Option (List String) := do
  let cp ← toFixedJs a.current_price 2
  let pc ← toFixedJs a.price_change 2
  let rsi ← toFixedJs a.technical_indicators.rsi 2
  let macd ← toFixedJs a.technical_indicators.macd 2
  let vol ← toFixedJs (a.technical_indicators.volatility * 100) 2
  let s20 ← toFixedJs a.technical_indicators.sma20 2
  let s50 ← toFixedJs a.technical_indicators.sma50 2
  let mc ← toFixedJs (a.market_cap / 1000000000) 2
  pure [a.company_name ++ " (" ++ a.symbol ++ ")",
    "$" ++ cp,
    (if 0 ≤ a.price_change then "+" else "") ++ pc ++ "%",
    a.sector, a.industry,
    a.technical_indicators.trend,
    rsi, macd, vol ++ "%",
    "$" ++ s20, "$" ++ s50,
    toLocaleStringJs a.technical_indicators.average_volume,
    "$" ++ mc ++ "B",
    a.analysis]

/-- Number of POST requests in a trace. -/
def postCount (l : List HttpRequest) : Nat :=
  l.countP (fun r => r.method == "POST")

/-- Concrete stock page state used by the witnesses. -/
def exStockState : StockState := ⟨"AAPL", "1y", false, none, ""⟩

/-- Concrete sentiment page state used by the witnesses. -/
def exSentState : SentimentState := ⟨"TSLA", "7", false, none, ""⟩

/-- Concrete portfolio page state used by the witnesses. -/
def exPortState : PortfolioState := ⟨⟨"30", "50000", "medium", "10"⟩, false, none, ""⟩

/-- A concrete successful stock payload used in counterexamples/witnesses. -/
def exStockPayload : StockAnalysis :=
  ⟨"AAPL", "Apple Inc.", "Technology", "Consumer Electronics", 190, 1/2,
    3000000000000, none, ⟨200, 120⟩, ⟨"Bullish", 55, 1, 180, 170, 1/4, 1000000⟩,
    "Solid fundamentals."⟩

/-- A concrete successful sentiment payload used in the counterexamples. -/
def exSentPayload : SentimentAnalysis :=
  ⟨"AAPL", "Apple Inc.", "Positive coverage.", 12, 10, 7, ["Reuters", "Bloomberg"]⟩

/-- Sentiment page state whose symbol contains a digit. -/
def exDigitSentState : SentimentState := ⟨"A1", "7", false, none, ""⟩

/-- Portfolio page state whose age field is outside 18-120. -/
def exBadAgePortState : PortfolioState := ⟨⟨"150", "50000", "medium", "10"⟩, false, none, ""⟩

/-- Stock page state whose symbol fails the 1-5 letters format. -/
def exBadStockState : StockState := ⟨"A1", "1y", false, none, ""⟩

/-- Sentiment page state with an empty symbol. -/
def exEmptySentState : SentimentState := ⟨"", "7", false, none, ""⟩

/-- The `age` field of a portfolio POST body, when the body is one. -/
def bodyAge : Option ReqBody → Option (Option Int)
  | some (.portfolioBody a _ _ _) => some a
  | _ => none

/-- Stock page state with an empty symbol but a stale result from a previous
successful invocation. -/
def exStaleStockState : StockState := ⟨"", "1y", false, some exStockPayload, ""⟩

/-! Branch equations for the three handlers. -/

theorem replaceFetchErr_backendDown : replaceFetchErr backendDownMsg = backendDownMsg := by
  decide

theorem stockHA_empty (st : StockState) (env : StockEnv) (h : st.symbol = "") :
    stockHandleAnalyze st env = ({ st with error := "Please enter a stock symbol" }, []) := by
  simp [stockHandleAnalyze, h]

theorem stockHA_invalid (st : StockState) (env : StockEnv) (h1 : ¬ st.symbol = "")
    (h2 : isValidStockSymbol (toUpperJs (trimJs st.symbol)) = false) :
    stockHandleAnalyze st env =
      ({ st with error := "Please enter a valid stock symbol (1-5 letters)" }, []) := by
  simp [stockHandleAnalyze, h1, h2]

theorem stockHA_healthReject (st : StockState) (m : String) (p : PostOutcome StockAnalysis)
    (h1 : ¬ st.symbol = "") (h2 : isValidStockSymbol (toUpperJs (trimJs st.symbol)) = true) :
    stockHandleAnalyze st ⟨.reject m, p⟩ =
      ({ st with
          loading := false
          analysis := none
          error := backendDownMsg },
        [healthRequest]) := by
  simp [stockHandleAnalyze, h1, h2, replaceFetchErr_backendDown]

theorem stockHA_postReject (st : StockState) (m : String)
    (h1 : ¬ st.symbol = "") (h2 : isValidStockSymbol (toUpperJs (trimJs st.symbol)) = true) :
    stockHandleAnalyze st ⟨.resolved, .reject m⟩ =
      ({ st with
          loading := false
          analysis := none
          error := replaceFetchErr m },
        [healthRequest, stockPostRequest (toUpperJs (trimJs st.symbol)) st.period]) := by
  simp [stockHandleAnalyze, h1, h2]

theorem stockHA_jsonErr (st : StockState) (ok : Bool) (m : String)
    (h1 : ¬ st.symbol = "") (h2 : isValidStockSymbol (toUpperJs (trimJs st.symbol)) = true) :
    stockHandleAnalyze st ⟨.resolved, .jsonErr ok m⟩ =
      ({ st with
          loading := false
          analysis := none
          error := replaceFetchErr m },
        [healthRequest, stockPostRequest (toUpperJs (trimJs st.symbol)) st.period]) := by
  simp [stockHandleAnalyze, h1, h2]

theorem stockHA_success (st : StockState) (d : StockAnalysis)
    (h1 : ¬ st.symbol = "") (h2 : isValidStockSymbol (toUpperJs (trimJs st.symbol)) = true) :
    stockHandleAnalyze st ⟨.resolved, .success d⟩ =
      ({ st with
          loading := false
          analysis := some d
          error := "" },
        [healthRequest, stockPostRequest (toUpperJs (trimJs st.symbol)) st.period]) := by
  simp [stockHandleAnalyze, h1, h2]

theorem stockHA_failure (st : StockState) (detail : Option String)
    (h1 : ¬ st.symbol = "") (h2 : isValidStockSymbol (toUpperJs (trimJs st.symbol)) = true) :
    stockHandleAnalyze st ⟨.resolved, .failure detail⟩ =
      ({ st with
          loading := false
          analysis := none
          error := replaceFetchErr (stockFailureMsg (toUpperJs (trimJs st.symbol)) detail) },
        [healthRequest, stockPostRequest (toUpperJs (trimJs st.symbol)) st.period]) := by
  simp [stockHandleAnalyze, h1, h2]

theorem sentHA_empty (st : SentimentState) (env : SentimentEnv) (h : st.symbol = "") :
    sentimentHandleAnalyze st env =
      ({ st with error := "Please enter a stock symbol" }, []) := by
  simp [sentimentHandleAnalyze, h]

theorem sentHA_healthReject (st : SentimentState) (m : String)
    (p : PostOutcome SentimentAnalysis) (h : ¬ st.symbol = "") :
    sentimentHandleAnalyze st ⟨.reject m, p⟩ =
      ({ st with
          loading := false
          analysis := none
          error := backendDownMsg },
        [healthRequest]) := by
  simp [sentimentHandleAnalyze, h, replaceFetchErr_backendDown]

theorem sentHA_postReject (st : SentimentState) (m : String) (h : ¬ st.symbol = "") :
    sentimentHandleAnalyze st ⟨.resolved, .reject m⟩ =
      ({ st with
          loading := false
          analysis := none
          error := replaceFetchErr m },
        [healthRequest, sentimentPostRequest (toUpperJs st.symbol) (parseIntJs st.days)]) := by
  simp [sentimentHandleAnalyze, h]

theorem sentHA_jsonErr (st : SentimentState) (ok : Bool) (m : String) (h : ¬ st.symbol = "") :
    sentimentHandleAnalyze st ⟨.resolved, .jsonErr ok m⟩ =
      ({ st with
          loading := false
          analysis := none
          error := replaceFetchErr m },
        [healthRequest, sentimentPostRequest (toUpperJs st.symbol) (parseIntJs st.days)]) := by
  simp [sentimentHandleAnalyze, h]

theorem sentHA_success (st : SentimentState) (d : SentimentAnalysis) (h : ¬ st.symbol = "") :
    sentimentHandleAnalyze st ⟨.resolved, .success d⟩ =
      ({ st with
          loading := false
          analysis := some d
          error := "" },
        [healthRequest, sentimentPostRequest (toUpperJs st.symbol) (parseIntJs st.days)]) := by
  simp [sentimentHandleAnalyze, h]

theorem sentHA_failure (st : SentimentState) (detail : Option String) (h : ¬ st.symbol = "") :
    sentimentHandleAnalyze st ⟨.resolved, .failure detail⟩ =
      ({ st with
          loading := false
          analysis := none
          error := replaceFetchErr (sentimentFailureMsg detail) },
        [healthRequest, sentimentPostRequest (toUpperJs st.symbol) (parseIntJs st.days)]) := by
  simp [sentimentHandleAnalyze, h]

theorem portHS_reject (st : PortfolioState) (m : String) :
    portfolioHandleSubmit st ⟨.reject m⟩ =
      ({ st with
          loading := false
          recommendation := none
          error := m },
        [portfolioPostRequest st.formData]) := by
  simp [portfolioHandleSubmit]

theorem portHS_jsonErr (st : PortfolioState) (ok : Bool) (m : String) :
    portfolioHandleSubmit st ⟨.jsonErr ok m⟩ =
      ({ st with
          loading := false
          recommendation := none
          error := m },
        [portfolioPostRequest st.formData]) := by
  simp [portfolioHandleSubmit]

theorem portHS_success (st : PortfolioState) (d : PortfolioRecommendation) :
    portfolioHandleSubmit st ⟨.success d⟩ =
      ({ st with
          loading := false
          recommendation := some d
          error := "" },
        [portfolioPostRequest st.formData]) := by
  simp [portfolioHandleSubmit]

theorem portHS_failure (st : PortfolioState) (detail : Option String) :
    portfolioHandleSubmit st ⟨.failure detail⟩ =
      ({ st with
          loading := false
          recommendation := none
          error := portfolioFailureMsg detail },
        [portfolioPostRequest st.formData]) := by
  simp [portfolioHandleSubmit]

/-! Derived facts shared by the claim proofs. -/

theorem replaceFetchErr_ne_empty (m : String) (h : m ≠ "") : replaceFetchErr m ≠ "" := by
  unfold replaceFetchErr
  split
  · decide
  · exact h

theorem stockFailureMsg_ne_empty (c : String) (dt : Option String) :
    stockFailureMsg c dt ≠ "" := by
  cases dt with
  | none => simp [stockFailureMsg]
  | some d =>
    simp only [stockFailureMsg]
    split
    · intro hc
      have h := congrArg String.data hc
      simp [String.data_append] at h
    · split
      · decide
      · next h => exact h

theorem sentimentFailureMsg_ne_empty (dt : Option String) : sentimentFailureMsg dt ≠ "" := by
  cases dt with
  | none => simp [sentimentFailureMsg]
  | some d =>
    simp only [sentimentFailureMsg]
    split
    · decide
    · next h => exact h

theorem portfolioFailureMsg_ne_empty (dt : Option String) : portfolioFailureMsg dt ≠ "" := by
  cases dt with
  | none => simp [portfolioFailureMsg]
  | some d =>
    simp only [portfolioFailureMsg]
    split
    · decide
    · next h => exact h

theorem backendDownMsg_ne_empty : backendDownMsg ≠ "" := by decide

theorem stock_trace_cases (st : StockState) (env : StockEnv) :
    (stockHandleAnalyze st env).2 = [] ∨ (stockHandleAnalyze st env).2 = [healthRequest] ∨
      ((stockHandleAnalyze st env).2 =
          [healthRequest, stockPostRequest (toUpperJs (trimJs st.symbol)) st.period] ∧
        isValidStockSymbol (toUpperJs (trimJs st.symbol)) = true) := by
  by_cases h1 : st.symbol = ""
  · rw [stockHA_empty st env h1]; left; rfl
  · by_cases h2 : isValidStockSymbol (toUpperJs (trimJs st.symbol)) = true
    · obtain ⟨hh, pp⟩ := env
      cases hh with
      | reject m => rw [stockHA_healthReject st m pp h1 h2]; right; left; rfl
      | resolved =>
        right; right
        refine ⟨?_, h2⟩
        cases pp with
        | reject m => rw [stockHA_postReject st m h1 h2]
        | jsonErr ok m => rw [stockHA_jsonErr st ok m h1 h2]
        | success d => rw [stockHA_success st d h1 h2]
        | failure dt => rw [stockHA_failure st dt h1 h2]
    · have h2f : isValidStockSymbol (toUpperJs (trimJs st.symbol)) = false := by
        simpa using h2
      rw [stockHA_invalid st env h1 h2f]; left; rfl

theorem sent_trace_cases (st : SentimentState) (env : SentimentEnv) :
    (sentimentHandleAnalyze st env).2 = [] ∨
      (sentimentHandleAnalyze st env).2 = [healthRequest] ∨
      (sentimentHandleAnalyze st env).2 =
        [healthRequest, sentimentPostRequest (toUpperJs st.symbol) (parseIntJs st.days)] := by
  by_cases h : st.symbol = ""
  · rw [sentHA_empty st env h]; left; rfl
  · obtain ⟨hh, pp⟩ := env
    cases hh with
    | reject m => rw [sentHA_healthReject st m pp h]; right; left; rfl
    | resolved =>
      right; right
      cases pp with
      | reject m => rw [sentHA_postReject st m h]
      | jsonErr ok m => rw [sentHA_jsonErr st ok m h]
      | success d => rw [sentHA_success st d h]
      | failure dt => rw [sentHA_failure st dt h]

theorem port_trace_cases (st : PortfolioState) (env : PortfolioEnv) :
    (portfolioHandleSubmit st env).2 = [portfolioPostRequest st.formData] := by
  obtain ⟨pp⟩ := env
  cases pp with
  | reject m => rw [portHS_reject st m]
  | jsonErr ok m => rw [portHS_jsonErr st ok m]
  | success d => rw [portHS_success st d]
  | failure dt => rw [portHS_failure st dt]

/-- C3: on the stock-analysis and sentiment pages, when the GET /health probe
fails (the fetch rejects), the handler sets the connectivity error message
"Backend server is not running. Please start the server and try again." and
does not issue the POST analysis request. -/
theorem c3_health_probe (sst : StockState) (sp : PostOutcome StockAnalysis)
    (nst : SentimentState) (np : PostOutcome SentimentAnalysis) (m1 m2 : String)
    (hs1 : ¬ sst.symbol = "")
    (hs2 : isValidStockSymbol (toUpperJs (trimJs sst.symbol)) = true)
    (hn : ¬ nst.symbol = "") :
    (stockHandleAnalyze sst ⟨.reject m1, sp⟩).1.error =
        "Backend server is not running. Please start the server and try again." ∧
      (stockHandleAnalyze sst ⟨.reject m1, sp⟩).2 = [healthRequest] ∧
      postCount (stockHandleAnalyze sst ⟨.reject m1, sp⟩).2 = 0 ∧
      (sentimentHandleAnalyze nst ⟨.reject m2, np⟩).1.error =
        "Backend server is not running. Please start the server and try again." ∧
      (sentimentHandleAnalyze nst ⟨.reject m2, np⟩).2 = [healthRequest] ∧
      postCount (sentimentHandleAnalyze nst ⟨.reject m2, np⟩).2 = 0 := by
  rw [stockHA_healthReject sst m1 sp hs1 hs2, sentHA_healthReject nst m2 np hn]
  exact ⟨rfl, rfl, rfl, rfl, rfl, rfl⟩

/-- Witness for c3_health_probe at concrete inputs. -/
theorem c3_health_probe_witness :
    (¬ exStockState.symbol = "") ∧
      isValidStockSymbol (toUpperJs (trimJs exStockState.symbol)) = true ∧
      (¬ exSentState.symbol = "") ∧
      ((stockHandleAnalyze exStockState ⟨.reject "Failed to fetch", .failure none⟩).1.error =
          "Backend server is not running. Please start the server and try again." ∧
        (stockHandleAnalyze exStockState ⟨.reject "Failed to fetch", .failure none⟩).2 =
          [healthRequest] ∧
        postCount (stockHandleAnalyze exStockState
          ⟨.reject "Failed to fetch", .failure none⟩).2 = 0 ∧
        (sentimentHandleAnalyze exSentState ⟨.reject "Failed to fetch", .failure none⟩).1.error =
          "Backend server is not running. Please start the server and try again." ∧
        (sentimentHandleAnalyze exSentState ⟨.reject "Failed to fetch", .failure none⟩).2 =
          [healthRequest] ∧
        postCount (sentimentHandleAnalyze exSentState
          ⟨.reject "Failed to fetch", .failure none⟩).2 = 0) :=
  ⟨by decide, by decide, by decide,
    c3_health_probe exStockState (.failure none) exSentState (.failure none)
      "Failed to fetch" "Failed to fetch" (by decide) (by decide) (by decide)⟩

/-- C7: for every payload of the documented StockAnalysis shape (all numeric
fields present, pe_ratio possibly null) the stock page's render of the result
panels is total: every field access and formatting call is defined and no
exception is raised (pe_ratio, the only nullable field, is never accessed). -/
theorem c7_render_total (a : StockAnalysis) : (renderStockResult a).isSome = true := by
  simp [renderStockResult, toFixedJs]

/-- C8: every invocation of the three submit handlers that proceeds past input
validation terminates with the loading flag back at false, on the success path
and on every error path. -/
theorem c8_loading_reset (sst : StockState) (senv : StockEnv) (nst : SentimentState)
    (nenv : SentimentEnv) (pst : PortfolioState) (penv : PortfolioEnv)
    (hs1 : ¬ sst.symbol = "")
    (hs2 : isValidStockSymbol (toUpperJs (trimJs sst.symbol)) = true)
    (hn : ¬ nst.symbol = "") :
    (stockHandleAnalyze sst senv).1.loading = false ∧
      (sentimentHandleAnalyze nst nenv).1.loading = false ∧
      (portfolioHandleSubmit pst penv).1.loading = false := by
  refine ⟨?_, ?_, ?_⟩
  · obtain ⟨hh, pp⟩ := senv
    cases hh with
    | reject m => rw [stockHA_healthReject sst m pp hs1 hs2]
    | resolved =>
      cases pp with
      | reject m => rw [stockHA_postReject sst m hs1 hs2]
      | jsonErr ok m => rw [stockHA_jsonErr sst ok m hs1 hs2]
      | success d => rw [stockHA_success sst d hs1 hs2]
      | failure dt => rw [stockHA_failure sst dt hs1 hs2]
  · obtain ⟨hh, pp⟩ := nenv
    cases hh with
    | reject m => rw [sentHA_healthReject nst m pp hn]
    | resolved =>
      cases pp with
      | reject m => rw [sentHA_postReject nst m hn]
      | jsonErr ok m => rw [sentHA_jsonErr nst ok m hn]
      | success d => rw [sentHA_success nst d hn]
      | failure dt => rw [sentHA_failure nst dt hn]
  · obtain ⟨pp⟩ := penv
    cases pp with
    | reject m => rw [portHS_reject pst m]
    | jsonErr ok m => rw [portHS_jsonErr pst ok m]
    | success d => rw [portHS_success pst d]
    | failure dt => rw [portHS_failure pst dt]

/-- Witness for c8_loading_reset at concrete inputs. -/
theorem c8_loading_reset_witness :
    (¬ exStockState.symbol = "") ∧
      isValidStockSymbol (toUpperJs (trimJs exStockState.symbol)) = true ∧
      (¬ exSentState.symbol = "") ∧
      ((stockHandleAnalyze exStockState ⟨.resolved, .failure (some "boom")⟩).1.loading = false ∧
        (sentimentHandleAnalyze exSentState ⟨.reject "x", .reject "y"⟩).1.loading = false ∧
        (portfolioHandleSubmit exPortState ⟨.jsonErr true "bad json"⟩).1.loading = false) :=
  ⟨by decide, by decide, by decide,
    c8_loading_reset exStockState ⟨.resolved, .failure (some "boom")⟩ exSentState
      ⟨.reject "x", .reject "y"⟩ exPortState ⟨.jsonErr true "bad json"⟩
      (by decide) (by decide) (by decide)⟩

/-- C10: whenever the caught error's message contains "Failed to fetch", the
stock and sentiment pages replace the displayed error with the fixed message
"Unable to connect to the backend server. Please ensure it is running on port
8001."; the portfolio page stores the raw caught message unchanged. -/
theorem c10_failed_to_fetch (sst : StockState) (nst : SentimentState) (pst : PortfolioState)
    (m1 m2 m3 : String)
    (hs1 : ¬ sst.symbol = "")
    (hs2 : isValidStockSymbol (toUpperJs (trimJs sst.symbol)) = true)
    (hn : ¬ nst.symbol = "")
    (hf1 : strIncludes m1 "Failed to fetch" = true)
    (hf2 : strIncludes m2 "Failed to fetch" = true)
    (hf3 : strIncludes m3 "Failed to fetch" = true) :
    (stockHandleAnalyze sst ⟨.resolved, .reject m1⟩).1.error =
        "Unable to connect to the backend server. Please ensure it is running on port 8001." ∧
      (sentimentHandleAnalyze nst ⟨.resolved, .reject m2⟩).1.error =
        "Unable to connect to the backend server. Please ensure it is running on port 8001." ∧
      (portfolioHandleSubmit pst ⟨.reject m3⟩).1.error = m3 := by
  rw [stockHA_postReject sst m1 hs1 hs2, sentHA_postReject nst m2 hn, portHS_reject pst m3]
  refine ⟨?_, ?_, rfl⟩ <;> simp [replaceFetchErr, hf1, hf2, fixedConnMsg]

/-- Witness for c10_failed_to_fetch at concrete inputs. -/
theorem c10_failed_to_fetch_witness :
    (¬ exStockState.symbol = "") ∧
      isValidStockSymbol (toUpperJs (trimJs exStockState.symbol)) = true ∧
      (¬ exSentState.symbol = "") ∧
      strIncludes "Failed to fetch" "Failed to fetch" = true ∧
      ((stockHandleAnalyze exStockState ⟨.resolved, .reject "Failed to fetch"⟩).1.error =
          "Unable to connect to the backend server. Please ensure it is running on port 8001." ∧
        (sentimentHandleAnalyze exSentState ⟨.resolved, .reject "Failed to fetch"⟩).1.error =
          "Unable to connect to the backend server. Please ensure it is running on port 8001." ∧
        (portfolioHandleSubmit exPortState ⟨.reject "Failed to fetch"⟩).1.error =
          "Failed to fetch") :=
  ⟨by decide, by decide, by decide, by decide,
    c10_failed_to_fetch exStockState exSentState exPortState
      "Failed to fetch" "Failed to fetch" "Failed to fetch"
      (by decide) (by decide) (by decide) (by decide) (by decide) (by decide)⟩

/-- The health GET and a POST are never the same request. -/
theorem nodup_health_pair (r : HttpRequest) (hm : r.method = "POST") :
    ([healthRequest, r]).Nodup := by
  refine List.nodup_cons.mpr ⟨?_, List.nodup_singleton r⟩
  intro hmem
  rw [List.mem_singleton] at hmem
  rw [← hmem] at hm
  exact absurd hm (by decide)

theorem postCount_single_le (r : HttpRequest) : postCount [r] ≤ 1 := by
  simp [postCount, List.countP_cons, List.countP_nil]
  split <;> omega

theorem postCount_nil_le : postCount [] ≤ 1 := by decide

theorem postCount_pair_le (r : HttpRequest) : postCount [healthRequest, r] ≤ 1 := by
  have hh : (healthRequest.method == "POST") = false := by decide
  simp [postCount, List.countP_cons, List.countP_nil, hh]
  split <;> omega

theorem nodup_health_single : ([healthRequest]).Nodup := List.nodup_singleton _

theorem stock_c4 (st : StockState) (env : StockEnv) (g : env.post.goodMsgs) :
    postCount (stockHandleAnalyze st env).2 ≤ 1 ∧
      (stockHandleAnalyze st env).2.Nodup ∧
      (env.post.isSuccess = false ∨ env.health ≠ .resolved ∨ st.symbol = "" ∨
          isValidStockSymbol (toUpperJs (trimJs st.symbol)) = false →
        (stockHandleAnalyze st env).1.error ≠ "") := by
  by_cases h1 : st.symbol = ""
  · rw [stockHA_empty st env h1]
    exact ⟨postCount_nil_le, List.nodup_nil,
      fun _ => (by decide : ("Please enter a stock symbol" : String) ≠ "")⟩
  · by_cases h2 : isValidStockSymbol (toUpperJs (trimJs st.symbol)) = true
    · obtain ⟨hh, pp⟩ := env
      cases hh with
      | reject m =>
        rw [stockHA_healthReject st m pp h1 h2]
        exact ⟨postCount_single_le _, nodup_health_single, fun _ => backendDownMsg_ne_empty⟩
      | resolved =>
        cases pp with
        | reject m =>
          rw [stockHA_postReject st m h1 h2]
          exact ⟨postCount_pair_le _, nodup_health_pair _ rfl,
            fun _ => replaceFetchErr_ne_empty m g⟩
        | jsonErr ok m =>
          rw [stockHA_jsonErr st ok m h1 h2]
          exact ⟨postCount_pair_le _, nodup_health_pair _ rfl,
            fun _ => replaceFetchErr_ne_empty m g⟩
        | success d =>
          rw [stockHA_success st d h1 h2]
          refine ⟨postCount_pair_le _, nodup_health_pair _ rfl, ?_⟩
          rintro (h | h | h | h)
          · simp [PostOutcome.isSuccess] at h
          · exact absurd rfl h
          · exact absurd h h1
          · rw [h2] at h
            exact Bool.noConfusion h
        | failure dt =>
          rw [stockHA_failure st dt h1 h2]
          exact ⟨postCount_pair_le _, nodup_health_pair _ rfl,
            fun _ => replaceFetchErr_ne_empty _ (stockFailureMsg_ne_empty _ dt)⟩
    · have h2f : isValidStockSymbol (toUpperJs (trimJs st.symbol)) = false := by
        simpa using h2
      rw [stockHA_invalid st env h1 h2f]
      exact ⟨postCount_nil_le, List.nodup_nil,
        fun _ =>
          (by decide : ("Please enter a valid stock symbol (1-5 letters)" : String) ≠ "")⟩

theorem sent_c4 (st : SentimentState) (env : SentimentEnv) (g : env.post.goodMsgs) :
    postCount (sentimentHandleAnalyze st env).2 ≤ 1 ∧
      (sentimentHandleAnalyze st env).2.Nodup ∧
      (env.post.isSuccess = false ∨ env.health ≠ .resolved ∨ st.symbol = "" →
        (sentimentHandleAnalyze st env).1.error ≠ "") := by
  by_cases h1 : st.symbol = ""
  · rw [sentHA_empty st env h1]
    exact ⟨postCount_nil_le, List.nodup_nil,
      fun _ => (by decide : ("Please enter a stock symbol" : String) ≠ "")⟩
  · obtain ⟨hh, pp⟩ := env
    cases hh with
    | reject m =>
      rw [sentHA_healthReject st m pp h1]
      exact ⟨postCount_single_le _, nodup_health_single, fun _ => backendDownMsg_ne_empty⟩
    | resolved =>
      cases pp with
      | reject m =>
        rw [sentHA_postReject st m h1]
        exact ⟨postCount_pair_le _, nodup_health_pair _ rfl,
          fun _ => replaceFetchErr_ne_empty m g⟩
      | jsonErr ok m =>
        rw [sentHA_jsonErr st ok m h1]
        exact ⟨postCount_pair_le _, nodup_health_pair _ rfl,
          fun _ => replaceFetchErr_ne_empty m g⟩
      | success d =>
        rw [sentHA_success st d h1]
        refine ⟨postCount_pair_le _, nodup_health_pair _ rfl, ?_⟩
        rintro (h | h | h)
        · simp [PostOutcome.isSuccess] at h
        · exact absurd rfl h
        · exact absurd h h1
      | failure dt =>
        rw [sentHA_failure st dt h1]
        exact ⟨postCount_pair_le _, nodup_health_pair _ rfl,
          fun _ => replaceFetchErr_ne_empty _ (sentimentFailureMsg_ne_empty dt)⟩

theorem port_c4 (st : PortfolioState) (env : PortfolioEnv) (g : env.post.goodMsgs) :
    postCount (portfolioHandleSubmit st env).2 ≤ 1 ∧
      (portfolioHandleSubmit st env).2.Nodup ∧
      (env.post.isSuccess = false → (portfolioHandleSubmit st env).1.error ≠ "") := by
  obtain ⟨pp⟩ := env
  cases pp with
  | reject m =>
    rw [portHS_reject st m]
    exact ⟨postCount_single_le _, List.nodup_singleton _, fun _ => g⟩
  | jsonErr ok m =>
    rw [portHS_jsonErr st ok m]
    exact ⟨postCount_single_le _, List.nodup_singleton _, fun _ => g⟩
  | success d =>
    rw [portHS_success st d]
    refine ⟨postCount_single_le _, List.nodup_singleton _, ?_⟩
    intro h
    simp [PostOutcome.isSuccess] at h
  | failure dt =>
    rw [portHS_failure st dt]
    exact ⟨postCount_single_le _, List.nodup_singleton _,
      fun _ => portfolioFailureMsg_ne_empty dt⟩

/-- C4: every error outcome is terminal for the current action: each
submit-handler invocation issues at most one POST, its request trace never
repeats a request (nothing is retried), and on any failure - a validation
rejection, a health-probe rejection, a non-2xx response, or a thrown error -
it sets a non-empty inline error state. -/
theorem c4_terminal_errors (sst : StockState) (senv : StockEnv) (nst : SentimentState)
    (nenv : SentimentEnv) (pst : PortfolioState) (penv : PortfolioEnv)
    (g1 : senv.post.goodMsgs) (g2 : nenv.post.goodMsgs) (g3 : penv.post.goodMsgs) :
    (postCount (stockHandleAnalyze sst senv).2 ≤ 1 ∧
        (stockHandleAnalyze sst senv).2.Nodup ∧
        (senv.post.isSuccess = false ∨ senv.health ≠ .resolved ∨ sst.symbol = "" ∨
            isValidStockSymbol (toUpperJs (trimJs sst.symbol)) = false →
          (stockHandleAnalyze sst senv).1.error ≠ "")) ∧
      (postCount (sentimentHandleAnalyze nst nenv).2 ≤ 1 ∧
        (sentimentHandleAnalyze nst nenv).2.Nodup ∧
        (nenv.post.isSuccess = false ∨ nenv.health ≠ .resolved ∨ nst.symbol = "" →
          (sentimentHandleAnalyze nst nenv).1.error ≠ "")) ∧
      (postCount (portfolioHandleSubmit pst penv).2 ≤ 1 ∧
        (portfolioHandleSubmit pst penv).2.Nodup ∧
        (penv.post.isSuccess = false → (portfolioHandleSubmit pst penv).1.error ≠ "")) :=
  ⟨stock_c4 sst senv g1, sent_c4 nst nenv g2, port_c4 pst penv g3⟩

/-- Witness for c4_terminal_errors at concrete inputs; the stock instance
fails validation (symbol "A1"), the others fail past validation. -/
theorem c4_terminal_errors_witness :
    (PostOutcome.failure (α := StockAnalysis) (some "nope")).goodMsgs ∧
      (("Failed to fetch" : String) ≠ "") ∧
      (PostOutcome.failure (α := PortfolioRecommendation) none).goodMsgs ∧
      ((postCount (stockHandleAnalyze exBadStockState
            ⟨.resolved, .failure (some "nope")⟩).2 ≤ 1 ∧
        (stockHandleAnalyze exBadStockState ⟨.resolved, .failure (some "nope")⟩).2.Nodup ∧
        ((PostOutcome.failure (α := StockAnalysis) (some "nope")).isSuccess = false ∨
            (HealthOutcome.resolved : HealthOutcome) ≠ .resolved ∨
            exBadStockState.symbol = "" ∨
            isValidStockSymbol (toUpperJs (trimJs exBadStockState.symbol)) = false →
          (stockHandleAnalyze exBadStockState
            ⟨.resolved, .failure (some "nope")⟩).1.error ≠ "")) ∧
      (postCount (sentimentHandleAnalyze exSentState
            ⟨.resolved, .reject "Failed to fetch"⟩).2 ≤ 1 ∧
        (sentimentHandleAnalyze exSentState ⟨.resolved, .reject "Failed to fetch"⟩).2.Nodup ∧
        ((PostOutcome.reject (α := SentimentAnalysis) "Failed to fetch").isSuccess = false ∨
            (HealthOutcome.resolved : HealthOutcome) ≠ .resolved ∨
            exSentState.symbol = "" →
          (sentimentHandleAnalyze exSentState
            ⟨.resolved, .reject "Failed to fetch"⟩).1.error ≠ "")) ∧
      (postCount (portfolioHandleSubmit exPortState ⟨.failure none⟩).2 ≤ 1 ∧
        (portfolioHandleSubmit exPortState ⟨.failure none⟩).2.Nodup ∧
        ((PostOutcome.failure (α := PortfolioRecommendation) none).isSuccess = false →
          (portfolioHandleSubmit exPortState ⟨.failure none⟩).1.error ≠ ""))) :=
  ⟨trivial, by decide, trivial,
    c4_terminal_errors exBadStockState ⟨.resolved, .failure (some "nope")⟩ exSentState
      ⟨.resolved, .reject "Failed to fetch"⟩ exPortState ⟨.failure none⟩
      trivial (show ("Failed to fetch" : String) ≠ "" by decide) trivial⟩

theorem stock_post_body (st : StockState) (env : StockEnv) (r : HttpRequest)
    (s p : String) (hmem : r ∈ (stockHandleAnalyze st env).2)
    (hb : r.body = some (.stockBody s p)) :
    s = toUpperJs (trimJs st.symbol) ∧ isValidStockSymbol s = true ∧ p = st.period := by
  rcases stock_trace_cases st env with h | h | ⟨h, hv⟩
  · rw [h] at hmem
    exact absurd hmem (List.not_mem_nil r)
  · rw [h, List.mem_singleton] at hmem
    subst hmem
    exact absurd hb (by simp [healthRequest])
  · rw [h] at hmem
    simp only [List.mem_cons, List.mem_singleton, List.not_mem_nil, or_false] at hmem
    rcases hmem with he | he
    · subst he
      exact absurd hb (by simp [healthRequest])
    · subst he
      simp only [stockPostRequest, Option.some.injEq, ReqBody.stockBody.injEq] at hb
      obtain ⟨hs, hp⟩ := hb
      subst hs
      subst hp
      exact ⟨rfl, hv, rfl⟩

theorem sent_post_body (st : SentimentState) (env : SentimentEnv) (r : HttpRequest)
    (s : String) (d : Option Int) (hmem : r ∈ (sentimentHandleAnalyze st env).2)
    (hb : r.body = some (.sentimentBody s d)) :
    s = toUpperJs st.symbol ∧ d = parseIntJs st.days := by
  rcases sent_trace_cases st env with h | h | h
  · rw [h] at hmem
    exact absurd hmem (List.not_mem_nil r)
  · rw [h, List.mem_singleton] at hmem
    subst hmem
    exact absurd hb (by simp [healthRequest])
  · rw [h] at hmem
    simp only [List.mem_cons, List.mem_singleton, List.not_mem_nil, or_false] at hmem
    rcases hmem with he | he
    · subst he
      exact absurd hb (by simp [healthRequest])
    · subst he
      simp only [sentimentPostRequest, Option.some.injEq, ReqBody.sentimentBody.injEq] at hb
      obtain ⟨hs, hd⟩ := hb
      exact ⟨hs.symm, hd.symm⟩

/-- C5: a `symbol` field POSTed to /analyze/stock always equals the trimmed,
uppercased user input and matches `^[A-Z]{1,5}$`; a `symbol` field POSTed to
/analyze/sentiment always equals the uppercased user input. -/
theorem c5_symbol_upper (sst : StockState) (senv : StockEnv) (nst : SentimentState)
    (nenv : SentimentEnv) (r1 r2 : HttpRequest) (s p ns : String) (nd : Option Int)
    (h1 : r1 ∈ (stockHandleAnalyze sst senv).2)
    (hb1 : r1.body = some (.stockBody s p))
    (h2 : r2 ∈ (sentimentHandleAnalyze nst nenv).2)
    (hb2 : r2.body = some (.sentimentBody ns nd)) :
    s = toUpperJs (trimJs sst.symbol) ∧ isValidStockSymbol s = true ∧
      ns = toUpperJs nst.symbol := by
  obtain ⟨e1, e2, _⟩ := stock_post_body sst senv r1 s p h1 hb1
  obtain ⟨e3, _⟩ := sent_post_body nst nenv r2 ns nd h2 hb2
  exact ⟨e1, e2, e3⟩

/-- Witness for c5_symbol_upper at concrete inputs. -/
theorem c5_symbol_upper_witness :
    stockPostRequest "AAPL" "1y" ∈
        (stockHandleAnalyze exStockState ⟨.resolved, .failure none⟩).2 ∧
      (stockPostRequest "AAPL" "1y").body = some (.stockBody "AAPL" "1y") ∧
      sentimentPostRequest "TSLA" (some 7) ∈
        (sentimentHandleAnalyze exSentState ⟨.resolved, .failure none⟩).2 ∧
      (sentimentPostRequest "TSLA" (some 7)).body = some (.sentimentBody "TSLA" (some 7)) ∧
      (("AAPL" : String) = toUpperJs (trimJs exStockState.symbol) ∧
        isValidStockSymbol "AAPL" = true ∧
        ("TSLA" : String) = toUpperJs exSentState.symbol) :=
  ⟨by decide, by decide, by decide, by decide,
    c5_symbol_upper exStockState ⟨.resolved, .failure none⟩ exSentState
      ⟨.resolved, .failure none⟩ (stockPostRequest "AAPL" "1y")
      (sentimentPostRequest "TSLA" (some 7)) "AAPL" "1y" "TSLA" (some 7)
      (by decide) (by decide) (by decide) (by decide)⟩

/-- C6 counterexample: the GET /health probe is issued by the stock handler
with an empty header list, so it does not carry Content-Type:
application/json, refuting the claim for "every HTTP request". -/
theorem c6_content_type_counterexample :
    healthRequest ∈ (stockHandleAnalyze exStockState ⟨.resolved, .failure none⟩).2 ∧
      ¬ ("Content-Type", "application/json") ∈ healthRequest.headers := by
  exact ⟨by decide, by decide⟩

/-- C6 amended: every POST request issued by the three handlers carries
Content-Type: application/json; the GET /health probe carries no explicit
headers at all. -/
theorem c6_content_type_amended (sst : StockState) (senv : StockEnv) (nst : SentimentState)
    (nenv : SentimentEnv) (pst : PortfolioState) (penv : PortfolioEnv) (r : HttpRequest)
    (h : r ∈ (stockHandleAnalyze sst senv).2 ∨ r ∈ (sentimentHandleAnalyze nst nenv).2 ∨
      r ∈ (portfolioHandleSubmit pst penv).2) :
    (r.method = "POST" → ("Content-Type", "application/json") ∈ r.headers) ∧
      (r.method = "GET" → r.headers = []) := by
  have hhealth : (healthRequest.method = "POST" →
        ("Content-Type", "application/json") ∈ healthRequest.headers) ∧
      (healthRequest.method = "GET" → healthRequest.headers = []) := by
    exact ⟨fun hm => absurd hm (by decide), fun _ => rfl⟩
  rcases h with h | h | h
  · rcases stock_trace_cases sst senv with ht | ht | ⟨ht, _⟩
    · rw [ht] at h
      exact absurd h (List.not_mem_nil r)
    · rw [ht, List.mem_singleton] at h
      subst h
      exact hhealth
    · rw [ht] at h
      simp only [List.mem_cons, List.mem_singleton, List.not_mem_nil, or_false] at h
      rcases h with he | he
      · subst he
        exact hhealth
      · subst he
        exact ⟨fun _ => by simp [stockPostRequest], fun hm => absurd hm (by simp [stockPostRequest])⟩
  · rcases sent_trace_cases nst nenv with ht | ht | ht
    · rw [ht] at h
      exact absurd h (List.not_mem_nil r)
    · rw [ht, List.mem_singleton] at h
      subst h
      exact hhealth
    · rw [ht] at h
      simp only [List.mem_cons, List.mem_singleton, List.not_mem_nil, or_false] at h
      rcases h with he | he
      · subst he
        exact hhealth
      · subst he
        exact ⟨fun _ => by simp [sentimentPostRequest],
          fun hm => absurd hm (by simp [sentimentPostRequest])⟩
  · rw [port_trace_cases pst penv, List.mem_singleton] at h
    subst h
    exact ⟨fun _ => by simp [portfolioPostRequest],
      fun hm => absurd hm (by simp [portfolioPostRequest])⟩

/-- Witness for c6_content_type_amended at concrete inputs. -/
theorem c6_content_type_amended_witness :
    (stockPostRequest "AAPL" "1y" ∈
        (stockHandleAnalyze exStockState ⟨.resolved, .success exStockPayload⟩).2 ∨
      stockPostRequest "AAPL" "1y" ∈
        (sentimentHandleAnalyze exSentState ⟨.resolved, .failure none⟩).2 ∨
      stockPostRequest "AAPL" "1y" ∈
        (portfolioHandleSubmit exPortState ⟨.failure none⟩).2) ∧
      (((stockPostRequest "AAPL" "1y").method = "POST" →
        ("Content-Type", "application/json") ∈ (stockPostRequest "AAPL" "1y").headers) ∧
      ((stockPostRequest "AAPL" "1y").method = "GET" →
        (stockPostRequest "AAPL" "1y").headers = [])) :=
  ⟨Or.inl (by decide),
    c6_content_type_amended exStockState ⟨.resolved, .success exStockPayload⟩ exSentState
      ⟨.resolved, .failure none⟩ exPortState ⟨.failure none⟩
      (stockPostRequest "AAPL" "1y") (Or.inl (by decide))⟩

/-- C1 counterexample: a symbol containing a digit on the sentiment page and an
age outside 18-120 on the portfolio page are not rejected by the submit
handlers: both invocations issue network requests (the sentiment one even
POSTs the digit-bearing symbol) and set no validation error. -/
theorem c1_validation_counterexample :
    ((sentimentHandleAnalyze exDigitSentState ⟨.resolved, .success exSentPayload⟩).2).length
        = 2 ∧
      (sentimentHandleAnalyze exDigitSentState
        ⟨.resolved, .success exSentPayload⟩).1.error = "" ∧
      postCount ((sentimentHandleAnalyze exDigitSentState
        ⟨.resolved, .success exSentPayload⟩).2) = 1 ∧
      sentimentPostRequest "A1" (some 7) ∈
        (sentimentHandleAnalyze exDigitSentState ⟨.resolved, .success exSentPayload⟩).2 ∧
      ((portfolioHandleSubmit exBadAgePortState ⟨.failure none⟩).2).length = 1 ∧
      ((portfolioHandleSubmit exBadAgePortState ⟨.failure none⟩).2.headD
          healthRequest).method = "POST" ∧
      bodyAge ((portfolioHandleSubmit exBadAgePortState ⟨.failure none⟩).2.headD
          healthRequest).body = some (some 150) := by
  refine ⟨?_, ?_, ?_, ?_, ?_, ?_, ?_⟩ <;> decide

/-- C1 corrected: only the stock page's handler rejects a malformed symbol
(set a validation error, no request); the sentiment handler rejects only an
empty symbol; the portfolio handler validates nothing.  A stock validation
failure leaves the previous result state untouched. -/
theorem c1_validation_amended (sst : StockState) (senv : StockEnv)
    (nst : SentimentState) (nenv : SentimentEnv)
    (hs : isValidStockSymbol (toUpperJs (trimJs sst.symbol)) = false)
    (hn : nst.symbol = "") :
    (stockHandleAnalyze sst senv).2 = [] ∧
      (stockHandleAnalyze sst senv).1.error ≠ "" ∧
      (stockHandleAnalyze sst senv).1.analysis = sst.analysis ∧
      (sentimentHandleAnalyze nst nenv).2 = [] ∧
      (sentimentHandleAnalyze nst nenv).1.error = "Please enter a stock symbol" := by
  have hstock : (stockHandleAnalyze sst senv).2 = [] ∧
      (stockHandleAnalyze sst senv).1.error ≠ "" ∧
      (stockHandleAnalyze sst senv).1.analysis = sst.analysis := by
    by_cases h1 : sst.symbol = ""
    · rw [stockHA_empty sst senv h1]
      exact ⟨rfl, (by decide : ("Please enter a stock symbol" : String) ≠ ""), rfl⟩
    · rw [stockHA_invalid sst senv h1 hs]
      exact ⟨rfl,
        (by decide : ("Please enter a valid stock symbol (1-5 letters)" : String) ≠ ""), rfl⟩
  rw [sentHA_empty nst nenv hn]
  exact ⟨hstock.1, hstock.2.1, hstock.2.2, rfl, rfl⟩

/-- Witness for c1_validation_amended at concrete inputs. -/
theorem c1_validation_amended_witness :
    isValidStockSymbol (toUpperJs (trimJs exBadStockState.symbol)) = false ∧
      exEmptySentState.symbol = "" ∧
      ((stockHandleAnalyze exBadStockState ⟨.resolved, .failure none⟩).2 = [] ∧
        (stockHandleAnalyze exBadStockState ⟨.resolved, .failure none⟩).1.error ≠ "" ∧
        (stockHandleAnalyze exBadStockState ⟨.resolved, .failure none⟩).1.analysis =
          exBadStockState.analysis ∧
        (sentimentHandleAnalyze exEmptySentState ⟨.resolved, .failure none⟩).2 = [] ∧
        (sentimentHandleAnalyze exEmptySentState ⟨.resolved, .failure none⟩).1.error =
          "Please enter a stock symbol") :=
  ⟨by decide, by decide,
    c1_validation_amended exBadStockState ⟨.resolved, .failure none⟩ exEmptySentState
      ⟨.resolved, .failure none⟩ (by decide) (by decide)⟩

/-- C2 counterexample: on the stock page, a non-2xx `detail` that contains
"No data found for symbol" is not surfaced verbatim; the handler substitutes
a constructed message embedding the submitted symbol. -/
theorem c2_detail_counterexample :
    (stockHandleAnalyze exStockState
        ⟨.resolved, .failure (some "No data found for symbol XYZQ (period=1y)")⟩).1.error =
      "No data found for symbol \"AAPL\". Please verify the stock symbol is correct." ∧
      (stockHandleAnalyze exStockState
        ⟨.resolved, .failure (some "No data found for symbol XYZQ (period=1y)")⟩).1.error ≠
        "No data found for symbol XYZQ (period=1y)" :=
  ⟨by decide, by decide⟩

/-- C2 corrected: a non-2xx `detail` string is surfaced verbatim provided it
is non-empty, does not contain "No data found for symbol" (stock page), and
does not contain "Failed to fetch" (stock and sentiment pages). -/
theorem c2_detail_amended (sst : StockState) (nst : SentimentState) (pst : PortfolioState)
    (d : String)
    (hs1 : ¬ sst.symbol = "")
    (hs2 : isValidStockSymbol (toUpperJs (trimJs sst.symbol)) = true)
    (hn : ¬ nst.symbol = "")
    (hd : ¬ d = "")
    (hnd : strIncludes d "No data found for symbol" = false)
    (hff : strIncludes d "Failed to fetch" = false) :
    (stockHandleAnalyze sst ⟨.resolved, .failure (some d)⟩).1.error = d ∧
      (sentimentHandleAnalyze nst ⟨.resolved, .failure (some d)⟩).1.error = d ∧
      (portfolioHandleSubmit pst ⟨.failure (some d)⟩).1.error = d := by
  rw [stockHA_failure sst (some d) hs1 hs2, sentHA_failure nst (some d) hn,
    portHS_failure pst (some d)]
  refine ⟨?_, ?_, ?_⟩
  · show replaceFetchErr (stockFailureMsg (toUpperJs (trimJs sst.symbol)) (some d)) = d
    simp [stockFailureMsg, hnd, hd, replaceFetchErr, hff]
  · show replaceFetchErr (sentimentFailureMsg (some d)) = d
    simp [sentimentFailureMsg, hd, replaceFetchErr, hff]
  · show portfolioFailureMsg (some d) = d
    simp [portfolioFailureMsg, hd]

/-- Witness for c2_detail_amended at concrete inputs. -/
theorem c2_detail_amended_witness :
    (¬ exStockState.symbol = "") ∧
      isValidStockSymbol (toUpperJs (trimJs exStockState.symbol)) = true ∧
      (¬ exSentState.symbol = "") ∧
      (¬ ("Rate limit exceeded" : String) = "") ∧
      strIncludes "Rate limit exceeded" "No data found for symbol" = false ∧
      strIncludes "Rate limit exceeded" "Failed to fetch" = false ∧
      ((stockHandleAnalyze exStockState
          ⟨.resolved, .failure (some "Rate limit exceeded")⟩).1.error =
            "Rate limit exceeded" ∧
        (sentimentHandleAnalyze exSentState
          ⟨.resolved, .failure (some "Rate limit exceeded")⟩).1.error =
            "Rate limit exceeded" ∧
        (portfolioHandleSubmit exPortState
          ⟨.failure (some "Rate limit exceeded")⟩).1.error = "Rate limit exceeded") :=
  ⟨by decide, by decide, by decide, by decide, by decide, by decide,
    c2_detail_amended exStockState exSentState exPortState "Rate limit exceeded"
      (by decide) (by decide) (by decide) (by decide) (by decide) (by decide)⟩

/-- C9 counterexample: a validation failure sets the error but does not clear
a previously stored result, so the error state and the result state are both
set after the invocation completes. -/
theorem c9_exclusive_counterexample :
    (stockHandleAnalyze exStaleStockState ⟨.resolved, .failure none⟩).1.error ≠ "" ∧
      (stockHandleAnalyze exStaleStockState ⟨.resolved, .failure none⟩).1.analysis ≠ none :=
  ⟨by decide, by decide⟩

theorem stock_c9 (st : StockState) (env : StockEnv)
    (h1 : ¬ st.symbol = "") (h2 : isValidStockSymbol (toUpperJs (trimJs st.symbol)) = true)
    (g : env.post.goodMsgs) :
    ((stockHandleAnalyze st env).1.error = "" ∨
        (stockHandleAnalyze st env).1.analysis = none) ∧
      (∀ d, env.health = .resolved → env.post = .success d →
        (stockHandleAnalyze st env).1.error = "" ∧
          (stockHandleAnalyze st env).1.analysis = some d) ∧
      (env.post.isSuccess = false ∨ env.health ≠ .resolved →
        (stockHandleAnalyze st env).1.error ≠ "" ∧
          (stockHandleAnalyze st env).1.analysis = none) := by
  obtain ⟨hh, pp⟩ := env
  cases hh with
  | reject m =>
    rw [stockHA_healthReject st m pp h1 h2]
    refine ⟨Or.inr rfl, ?_, fun _ => ⟨backendDownMsg_ne_empty, rfl⟩⟩
    intro d hres _
    simp at hres
  | resolved =>
    cases pp with
    | reject m =>
      rw [stockHA_postReject st m h1 h2]
      refine ⟨Or.inr rfl, ?_, fun _ => ⟨replaceFetchErr_ne_empty m g, rfl⟩⟩
      intro d _ hsucc
      simp at hsucc
    | jsonErr ok m =>
      rw [stockHA_jsonErr st ok m h1 h2]
      refine ⟨Or.inr rfl, ?_, fun _ => ⟨replaceFetchErr_ne_empty m g, rfl⟩⟩
      intro d _ hsucc
      simp at hsucc
    | success d0 =>
      rw [stockHA_success st d0 h1 h2]
      refine ⟨Or.inl rfl, ?_, ?_⟩
      · intro d _ hsucc
        have hsucc' : PostOutcome.success d0 = PostOutcome.success d := hsucc
        injection hsucc' with hd
        subst hd
        exact ⟨rfl, rfl⟩
      · rintro (h | h)
        · simp [PostOutcome.isSuccess] at h
        · exact absurd rfl h
    | failure dt =>
      rw [stockHA_failure st dt h1 h2]
      refine ⟨Or.inr rfl, ?_,
        fun _ => ⟨replaceFetchErr_ne_empty _ (stockFailureMsg_ne_empty _ dt), rfl⟩⟩
      intro d _ hsucc
      simp at hsucc

theorem sent_c9 (st : SentimentState) (env : SentimentEnv) (h1 : ¬ st.symbol = "")
    (g : env.post.goodMsgs) :
    ((sentimentHandleAnalyze st env).1.error = "" ∨
        (sentimentHandleAnalyze st env).1.analysis = none) ∧
      (∀ d, env.health = .resolved → env.post = .success d →
        (sentimentHandleAnalyze st env).1.error = "" ∧
          (sentimentHandleAnalyze st env).1.analysis = some d) ∧
      (env.post.isSuccess = false ∨ env.health ≠ .resolved →
        (sentimentHandleAnalyze st env).1.error ≠ "" ∧
          (sentimentHandleAnalyze st env).1.analysis = none) := by
  obtain ⟨hh, pp⟩ := env
  cases hh with
  | reject m =>
    rw [sentHA_healthReject st m pp h1]
    refine ⟨Or.inr rfl, ?_, fun _ => ⟨backendDownMsg_ne_empty, rfl⟩⟩
    intro d hres _
    simp at hres
  | resolved =>
    cases pp with
    | reject m =>
      rw [sentHA_postReject st m h1]
      refine ⟨Or.inr rfl, ?_, fun _ => ⟨replaceFetchErr_ne_empty m g, rfl⟩⟩
      intro d _ hsucc
      simp at hsucc
    | jsonErr ok m =>
      rw [sentHA_jsonErr st ok m h1]
      refine ⟨Or.inr rfl, ?_, fun _ => ⟨replaceFetchErr_ne_empty m g, rfl⟩⟩
      intro d _ hsucc
      simp at hsucc
    | success d0 =>
      rw [sentHA_success st d0 h1]
      refine ⟨Or.inl rfl, ?_, ?_⟩
      · intro d _ hsucc
        have hsucc' : PostOutcome.success d0 = PostOutcome.success d := hsucc
        injection hsucc' with hd
        subst hd
        exact ⟨rfl, rfl⟩
      · rintro (h | h)
        · simp [PostOutcome.isSuccess] at h
        · exact absurd rfl h
    | failure dt =>
      rw [sentHA_failure st dt h1]
      refine ⟨Or.inr rfl, ?_,
        fun _ => ⟨replaceFetchErr_ne_empty _ (sentimentFailureMsg_ne_empty dt), rfl⟩⟩
      intro d _ hsucc
      simp at hsucc

theorem port_c9 (st : PortfolioState) (env : PortfolioEnv) (g : env.post.goodMsgs) :
    ((portfolioHandleSubmit st env).1.error = "" ∨
        (portfolioHandleSubmit st env).1.recommendation = none) ∧
      (∀ d, env.post = .success d →
        (portfolioHandleSubmit st env).1.error = "" ∧
          (portfolioHandleSubmit st env).1.recommendation = some d) ∧
      (env.post.isSuccess = false →
        (portfolioHandleSubmit st env).1.error ≠ "" ∧
          (portfolioHandleSubmit st env).1.recommendation = none) := by
  obtain ⟨pp⟩ := env
  cases pp with
  | reject m =>
    rw [portHS_reject st m]
    refine ⟨Or.inr rfl, ?_, fun _ => ⟨g, rfl⟩⟩
    intro d hsucc
    simp at hsucc
  | jsonErr ok m =>
    rw [portHS_jsonErr st ok m]
    refine ⟨Or.inr rfl, ?_, fun _ => ⟨g, rfl⟩⟩
    intro d hsucc
    simp at hsucc
  | success d0 =>
    rw [portHS_success st d0]
    refine ⟨Or.inl rfl, ?_, ?_⟩
    · intro d hsucc
      have hsucc' : PostOutcome.success d0 = PostOutcome.success d := hsucc
      injection hsucc' with hd
      subst hd
      exact ⟨rfl, rfl⟩
    · intro h
      simp [PostOutcome.isSuccess] at h
  | failure dt =>
    rw [portHS_failure st dt]
    refine ⟨Or.inr rfl, ?_, fun _ => ⟨portfolioFailureMsg_ne_empty dt, rfl⟩⟩
    intro d hsucc
    simp at hsucc

/-- C9 corrected: for invocations that proceed past input validation (and with
thrown errors carrying non-empty messages), error and result are mutually
exclusive on all three pages: a success leaves the error empty and stores the
payload, and any failure leaves the result null with a non-empty error.
Validation failures, by contrast, leave a previous result in place. -/
theorem c9_exclusive_amended (sst : StockState) (senv : StockEnv) (nst : SentimentState)
    (nenv : SentimentEnv) (pst : PortfolioState) (penv : PortfolioEnv)
    (hs1 : ¬ sst.symbol = "")
    (hs2 : isValidStockSymbol (toUpperJs (trimJs sst.symbol)) = true)
    (hn : ¬ nst.symbol = "")
    (g1 : senv.post.goodMsgs) (g2 : nenv.post.goodMsgs) (g3 : penv.post.goodMsgs) :
    (((stockHandleAnalyze sst senv).1.error = "" ∨
        (stockHandleAnalyze sst senv).1.analysis = none) ∧
      (∀ d, senv.health = .resolved → senv.post = .success d →
        (stockHandleAnalyze sst senv).1.error = "" ∧
          (stockHandleAnalyze sst senv).1.analysis = some d) ∧
      (senv.post.isSuccess = false ∨ senv.health ≠ .resolved →
        (stockHandleAnalyze sst senv).1.error ≠ "" ∧
          (stockHandleAnalyze sst senv).1.analysis = none)) ∧
      (((sentimentHandleAnalyze nst nenv).1.error = "" ∨
          (sentimentHandleAnalyze nst nenv).1.analysis = none) ∧
        (∀ d, nenv.health = .resolved → nenv.post = .success d →
          (sentimentHandleAnalyze nst nenv).1.error = "" ∧
            (sentimentHandleAnalyze nst nenv).1.analysis = some d) ∧
        (nenv.post.isSuccess = false ∨ nenv.health ≠ .resolved →
          (sentimentHandleAnalyze nst nenv).1.error ≠ "" ∧
            (sentimentHandleAnalyze nst nenv).1.analysis = none)) ∧
      (((portfolioHandleSubmit pst penv).1.error = "" ∨
          (portfolioHandleSubmit pst penv).1.recommendation = none) ∧
        (∀ d, penv.post = .success d →
          (portfolioHandleSubmit pst penv).1.error = "" ∧
            (portfolioHandleSubmit pst penv).1.recommendation = some d) ∧
        (penv.post.isSuccess = false →
          (portfolioHandleSubmit pst penv).1.error ≠ "" ∧
            (portfolioHandleSubmit pst penv).1.recommendation = none)) :=
  ⟨stock_c9 sst senv hs1 hs2 g1, sent_c9 nst nenv hn g2, port_c9 pst penv g3⟩

/-- Witness for c9_exclusive_amended at concrete inputs. -/
theorem c9_exclusive_amended_witness :
    (¬ exStockState.symbol = "") ∧
      isValidStockSymbol (toUpperJs (trimJs exStockState.symbol)) = true ∧
      (¬ exSentState.symbol = "") ∧
      (PostOutcome.success exStockPayload).goodMsgs ∧
      (PostOutcome.failure (α := SentimentAnalysis) (some "No news found")).goodMsgs ∧
      (PostOutcome.failure (α := PortfolioRecommendation) none).goodMsgs ∧
      (((stockHandleAnalyze exStockState ⟨.resolved, .success exStockPayload⟩).1.error = "" ∨
          (stockHandleAnalyze exStockState
            ⟨.resolved, .success exStockPayload⟩).1.analysis = none) ∧
        ((sentimentHandleAnalyze exSentState
              ⟨.resolved, .failure (some "No news found")⟩).1.error ≠ "" ∧
          (sentimentHandleAnalyze exSentState
            ⟨.resolved, .failure (some "No news found")⟩).1.analysis = none) ∧
        ((portfolioHandleSubmit exPortState ⟨.failure none⟩).1.error ≠ "" ∧
          (portfolioHandleSubmit exPortState ⟨.failure none⟩).1.recommendation = none)) :=
  ⟨by decide, by decide, by decide, trivial, trivial, trivial,
    (c9_exclusive_amended exStockState ⟨.resolved, .success exStockPayload⟩ exSentState
        ⟨.resolved, .failure (some "No news found")⟩ exPortState ⟨.failure none⟩
        (by decide) (by decide) (by decide) trivial trivial trivial).1.1,
    ((c9_exclusive_amended exStockState ⟨.resolved, .success exStockPayload⟩ exSentState
        ⟨.resolved, .failure (some "No news found")⟩ exPortState ⟨.failure none⟩
        (by decide) (by decide) (by decide) trivial trivial trivial).2.1.2.2
      (Or.inl rfl)),
    ((c9_exclusive_amended exStockState ⟨.resolved, .success exStockPayload⟩ exSentState
        ⟨.resolved, .failure (some "No news found")⟩ exPortState ⟨.failure none⟩
        (by decide) (by decide) (by decide) trivial trivial trivial).2.2.2.2 rfl)⟩
